import Mathlib

/-!
Verification of the debounced interrupt-to-task event pipeline of the
`embed-agent` repository (ESP-IDF GPIO demos).

The definitions below are shallow embeddings of the C sources:
* the debounce filter of `src/unnamed/part_000` (`gpio_isr_handler`,
  reject iff `current_time - last_interrupt_time < DEBOUNCE_TIME_US`,
  with `last_interrupt_time` statically initialised to `0`);
* the strict-comparison debounce variant of
  `src/tasks/lab1_task2_button_led_debounce/runs/2026-02-12_18-59-37` (first
  document), which accepts iff `current_time - last_interrupt_time >
  DEBOUNCE_TIME_US`;
* the mode counter, timer-period table, buzzer pulse and timer
  reconfiguration of the `gptimer` variant in the same run (third document),
  and the `xTimer`-reuse variant of `src/unnamed/part_001`;
* the bounded FIFO event channel (FreeRTOS queue, modelled from the spec).

Timestamps are `Int`, mirroring the C `int64_t` microsecond clock
(`esp_timer_get_time`); pin levels are `Nat` mirroring `uint32_t`/`int`.
-/

namespace EmbedAgent

/-- Constant `#define DEBOUNCE_TIME_US 50000` (src/unnamed/part_000, line 11). -/
def DEBOUNCE_TIME_US : Int := 50000

/-- Static initialiser of `last_interrupt_time` (src/unnamed/part_000, line 15:
`static volatile int64_t last_interrupt_time = 0;`). -/
def lastInterruptTimeInit : Int := 0

/-- One debounce decision of `gpio_isr_handler` in src/unnamed/part_000:
given the settle window `w`, the stored `last_interrupt_time` and the current
time `t`, returns the new `last_interrupt_time` and whether the edge was
accepted.  The C code returns early when `(t - last) < w`; otherwise it
stores `last := t` and proceeds to build and enqueue the event. -/
def debounceStep (w last t : Int) : Int × Bool :=
  if t - last < w then (last, false) else (t, true)

/-- One debounce decision of `gpio_isr_handler` in the first document of
run 2026-02-12_18-59-37: the body runs only when `(t - last) > w`
(strict comparison), in which case `last := t` and the event is enqueued. -/
def debounceStrictStep (w last t : Int) : Int × Bool :=
  if t - last > w then (t, true) else (last, false)

/-- Timestamps of the accepted events produced by iterating `debounceStep`
over a sequence of raw-edge timestamps, starting from stored state `last`. -/
def debounceRun (w : Int) : Int → List Int → List Int
  | _, [] => []
  | last, t :: ts =>
    if t - last < w then debounceRun w last ts
    else t :: debounceRun w t ts

/-- If every remaining edge is within the window of the stored state, nothing
further is accepted. -/
theorem debounceRun_all_close (w : Int) :
    ∀ (l : List Int) (last : Int), (∀ t ∈ l, t - last < w) →
      debounceRun w last l = [] := by
  intro l
  induction l with
  | nil => intro last _; rfl
  | cons t ts ih =>
    intro last h
    have ht : t - last < w := h t (List.mem_cons_self t ts)
    simp only [debounceRun, if_pos ht]
    exact ih last (fun u hu => h u (List.mem_cons_of_mem t hu))

/-- If every edge is at least the window after the stored state and
consecutive edges are at least the window apart, every edge is accepted. -/
theorem debounceRun_all_spaced (w : Int) :
    ∀ (l : List Int) (last : Int),
      (∀ t ∈ l.head?, last + w ≤ t) →
      l.Chain' (fun a b => a + w ≤ b) →
      debounceRun w last l = l := by
  intro l
  induction l with
  | nil => intro last _ _; rfl
  | cons t ts ih =>
    intro last hhead hchain
    have ht : last + w ≤ t := hhead t rfl
    have hnot : ¬ t - last < w := by omega
    simp only [debounceRun, if_neg hnot]
    rcases List.chain'_cons'.mp hchain with ⟨hnext, htail⟩
    have : debounceRun w t ts = ts := by
      apply ih t _ htail
      intro u hu
      have := hnext u hu
      omega
    rw [this]

/-- Under a pairwise-close burst, once an edge is accepted every later edge
is rejected, so at most one acceptance occurs from any stored state. -/
theorem debounceRun_pairwise_close (w : Int) :
    ∀ (l : List Int) (last : Int),
      l.Pairwise (fun a b => b - a < w) →
      (debounceRun w last l).length ≤ 1 := by
  intro l
  induction l with
  | nil => intro last _; simp [debounceRun]
  | cons t ts ih =>
    intro last hp
    rcases List.pairwise_cons.mp hp with ⟨hclose, htail⟩
    by_cases h : t - last < w
    · simp only [debounceRun, if_pos h]
      exact ih last htail
    · simp only [debounceRun, if_neg h]
      have : debounceRun w t ts = [] :=
        debounceRun_all_close w ts t (fun u hu => hclose u hu)
      simp [this]

/-- C1 (counterexample): with the window 50,000 µs and the stored timestamp
statically initialised to 0, the raw edges at t = 0, 10,000, 60,000 do NOT
yield accepted events at t = 0 and t = 60,000: the edge at t = 0 is rejected
because its elapsed time from the initial value 0 is 0 < 50,000. -/
theorem c1_first_edge_counterexample :
    debounceRun DEBOUNCE_TIME_US lastInterruptTimeInit
      [0, 10000, 60000] ≠ [0, 60000] := by
  decide

/-- C1 (amended): the initial `last_interrupt_time` is 0, not negative
infinity, so the very first raw edge is accepted iff its timestamp is at
least `DEBOUNCE_TIME_US`; for the edges t = 0, 10,000, 60,000 exactly the
edge at t = 60,000 produces an accepted event. -/
theorem c1_initial_state_zero :
    debounceRun DEBOUNCE_TIME_US lastInterruptTimeInit
      [0, 10000, 60000] = [60000] ∧
    ∀ t : Int, ((debounceStep DEBOUNCE_TIME_US lastInterruptTimeInit t).2 = true
      ↔ DEBOUNCE_TIME_US ≤ t) := by
  constructor
  · decide
  · intro t
    simp only [debounceStep, lastInterruptTimeInit, DEBOUNCE_TIME_US]
    split <;> simp <;> omega

/-- C2 (counterexample): the singleton raw-edge sequence [0] trivially
satisfies the consecutive-spacing requirement, yet the filter produces no
accepted event for it (the claim demands exactly one per raw edge): the
first edge is measured against the initial stored timestamp 0. -/
theorem c2_first_edge_counterexample :
    debounceRun DEBOUNCE_TIME_US lastInterruptTimeInit [0] ≠ [0] := by
  decide

/-- C2 (amended): provided the first raw edge occurs at least
`DEBOUNCE_TIME_US` after the clock origin (the stored timestamp starts at 0),
every sequence of edges spaced at least `DEBOUNCE_TIME_US` apart (boundary
included) is accepted edge-for-edge in arrival order; a single step discards
an edge iff its elapsed time over the stored timestamp is strictly below the
window.  The strict-comparison variant of run 2026-02-12_18-59-37 instead
accepts only when elapsed is strictly greater, so there an edge spaced
exactly `DEBOUNCE_TIME_US` is also discarded. -/
theorem c2_spaced_edges_all_accepted (l : List Int)
    (hfirst : ∀ t ∈ l.head?, DEBOUNCE_TIME_US ≤ t)
    (hspace : l.Chain' (fun a b => a + DEBOUNCE_TIME_US ≤ b)) :
    debounceRun DEBOUNCE_TIME_US lastInterruptTimeInit l = l ∧
    (∀ last t : Int, ((debounceStep DEBOUNCE_TIME_US last t).2 = false
      ↔ t - last < DEBOUNCE_TIME_US)) ∧
    (∀ last t : Int, ((debounceStrictStep DEBOUNCE_TIME_US last t).2 = true
      ↔ DEBOUNCE_TIME_US < t - last)) := by
  refine ⟨?_, ?_, ?_⟩
  · apply debounceRun_all_spaced
    · intro t ht
      have := hfirst t ht
      simp only [lastInterruptTimeInit]
      omega
    · exact hspace
  · intro last t
    simp only [debounceStep, DEBOUNCE_TIME_US]
    split <;> simp <;> omega
  · intro last t
    simp only [debounceStrictStep, DEBOUNCE_TIME_US]
    split <;> simp <;> omega

/-- C2 witness: the edges t = 50,000 and t = 100,000 satisfy both
hypotheses and are both accepted. -/
theorem c2_spaced_edges_witness :
    (∀ t ∈ ([50000, 100000] : List Int).head?, DEBOUNCE_TIME_US ≤ t) ∧
    ([50000, 100000] : List Int).Chain' (fun a b => a + DEBOUNCE_TIME_US ≤ b) ∧
    debounceRun DEBOUNCE_TIME_US lastInterruptTimeInit
      [50000, 100000] = [50000, 100000] :=
  ⟨by decide, by norm_num [List.chain'_cons, DEBOUNCE_TIME_US],
    (c2_spaced_edges_all_accepted [50000, 100000]
      (by decide) (by norm_num [List.chain'_cons, DEBOUNCE_TIME_US])).1⟩

/-- C6: for every burst of raw edges in which every pair of edges lies
strictly less than `DEBOUNCE_TIME_US` apart, the filter accepts at most one
edge, regardless of the length of the burst. -/
theorem c6_burst_at_most_one (l : List Int)
    (hclose : l.Pairwise (fun a b => b - a < DEBOUNCE_TIME_US)) :
    (debounceRun DEBOUNCE_TIME_US lastInterruptTimeInit l).length ≤ 1 :=
  debounceRun_pairwise_close DEBOUNCE_TIME_US l lastInterruptTimeInit hclose

/-- C6 witness: a concrete burst at t = 60,000, 70,000, 80,000 satisfies the
pairwise-closeness hypothesis and yields exactly one accepted event. -/
theorem c6_burst_witness :
    ([60000, 70000, 80000] : List Int).Pairwise
      (fun a b => b - a < DEBOUNCE_TIME_US) ∧
    (debounceRun DEBOUNCE_TIME_US lastInterruptTimeInit
      [60000, 70000, 80000]).length ≤ 1 :=
  ⟨by decide, c6_burst_at_most_one [60000, 70000, 80000] (by decide)⟩

/-- One mode-counter advance: `button_press_count = (button_press_count + 1) % 4`
(run 2026-02-12_18-59-37, third document, `button_isr_handler`), identical to
`button_state = (button_state + 1) % 4` in `src/unnamed/part_001`. -/
def modeAdvance (x : Nat) : Nat := (x + 1) % 4

/-- Table `static const uint64_t timer_periods[] = {500000, 250000, 125000, 0}`
(run 2026-02-12_18-59-37, third document): alarm periods in µs for modes
1 Hz, 2 Hz, 4 Hz, and the stopped mode. -/
def timer_periods : List Nat := [500000, 250000, 125000, 0]

/-- Waveform state applied by `configure_led_timer(mode)`: for `mode < 3` a
timer running with alarm period `timer_periods[mode]`; otherwise the timer is
left deleted (LED stopped). -/
structure WaveformSpec where
  enabled : Bool
  period_us : Nat
deriving DecidableEq, Repr

/-- The waveform `configure_led_timer` leaves behind for a given mode. -/
def waveformFor (mode : Nat) : WaveformSpec :=
  if mode < 3 then ⟨true, timer_periods.getD mode 0⟩ else ⟨false, 0⟩

/-- Constant `#define BUZZER_DURATION_MS 100` (run 2026-02-12_18-59-37, third document). -/
def BUZZER_DURATION_MS : Nat := 100

/-- Outcome of handling one accepted button press in the cyclic-mode variant. -/
structure PressOutcome where
  counter : Nat
  wave : WaveformSpec
  pulse_us : Nat
deriving DecidableEq, Repr

/-- Net effect of one accepted press in run 2026-02-12_18-59-37 (third
document): the ISR advances `button_press_count` before notifying, then
`main_task` runs `activate_buzzer()` (a `BUZZER_DURATION_MS` pulse) and
`configure_led_timer(button_press_count)` with the advanced counter. -/
def mainTaskStep (counter : Nat) : PressOutcome :=
  let c := modeAdvance counter
  ⟨c, waveformFor c, BUZZER_DURATION_MS * 1000⟩

/-- Counter `static uint8_t button_press_count = 0;` — its value after `k`
accepted presses from boot. -/
def pressCountAfter (k : Nat) : Nat := modeAdvance^[k] 0

/-- C3: the mode-counter advance adds exactly one modulo 4, keeps the counter
in [0, 4), and applied 4 times from any counter value is the identity. -/
theorem c3_mode_counter_cycle (x : Nat) (hx : x < 4) :
    modeAdvance x = (x + 1) % 4 ∧ modeAdvance x < 4 ∧ modeAdvance^[4] x = x := by
  refine ⟨rfl, Nat.mod_lt _ (by omega), ?_⟩
  interval_cases x <;> decide

/-- C3 witness: starting value 2 is in [0, 4) and returns to 2 after four
advances. -/
theorem c3_mode_counter_witness :
    modeAdvance 2 = (2 + 1) % 4 ∧ modeAdvance 2 < 4 ∧ modeAdvance^[4] 2 = 2 :=
  c3_mode_counter_cycle 2 (by decide)

/-- C7: from ModeCounter = 3 (off), one accepted press advances the counter
to 0, reconfigures the waveform generator to a 500,000 µs period, and fires
a 100,000 µs buzzer pulse. -/
theorem c7_press_from_off :
    mainTaskStep 3 = ⟨0, ⟨true, 500000⟩, 100000⟩ := by
  decide

/-- After `k` presses the counter holds `k % 4`. -/
theorem pressCountAfter_eq_mod (k : Nat) : pressCountAfter k = k % 4 := by
  induction k with
  | zero => rfl
  | succ n ih =>
    simp only [pressCountAfter, Function.iterate_succ_apply'] at *
    rw [ih]
    simp only [modeAdvance]
    omega

/-- C10: the counter starts at 0 and is advanced before the table lookup, so
after the k-th accepted press the applied table index is `k % 4`: the first
press programs index 1 (250,000 µs), the third press index 3 (disabled),
and the fourth press index 0 (500,000 µs). -/
theorem c10_press_count_mod :
    (∀ k : Nat, pressCountAfter k = k % 4) ∧
    pressCountAfter 0 = 0 ∧
    waveformFor (pressCountAfter 1) = ⟨true, 250000⟩ ∧
    waveformFor (pressCountAfter 3) = ⟨false, 0⟩ ∧
    waveformFor (pressCountAfter 4) = ⟨true, 500000⟩ :=
  ⟨pressCountAfter_eq_mod, rfl, by decide, by decide, by decide⟩

/-- The event payload of src/unnamed/part_000: `typedef struct { uint32_t
gpio_num; uint32_t level; } gpio_event_t;`. -/
structure GpioEvent where
  gpio_num : Nat
  level : Nat
deriving DecidableEq, Repr

/-- Capacity of the event queue: `xQueueCreate(10, sizeof(gpio_event_t))`
(src/unnamed/part_000, line 91). -/
def QUEUE_CAPACITY : Nat := 10

/-- Modelled from the spec: `xQueueSendFromISR` on a bounded FreeRTOS queue
(the queue implementation is not part of this repository).  Per §4.3 of the
spec, push is non-blocking and drop-newest: a full queue leaves the contents
unchanged and reports failure. -/
def queueSend (cap : Nat) (q : List GpioEvent) (e : GpioEvent) :
    List GpioEvent × Bool :=
  if q.length < cap then (q ++ [e], true) else (q, false)

/-- The cross-context state touched by `gpio_isr_handler` in
src/unnamed/part_000: `last_interrupt_time` and the event queue contents. -/
structure IsrState where
  last_interrupt_time : Int
  queue : List GpioEvent
deriving DecidableEq, Repr

/-- Function `gpio_isr_handler` of src/unnamed/part_000 as a state transformer: return
early if the elapsed time is below the window; otherwise store the timestamp,
sample the level, and enqueue the event, discarding the push's return value
(`xQueueSendFromISR(gpio_evt_queue, &evt, NULL);` — result unchecked, no drop
counter exists in the program state). -/
def gpio_isr_handler (cap : Nat) (w : Int) (s : IsrState)
    (t : Int) (pin level : Nat) : IsrState :=
  if t - s.last_interrupt_time < w then s
  else
    { last_interrupt_time := t,
      queue := (queueSend cap s.queue ⟨pin, level⟩).1 }

/-- C9: when an accepted edge's push fails because the queue is full, the
debounce state is not rolled back — `last_interrupt_time` is already the
dropped edge's timestamp, the queue is unchanged, and a later edge within
the settle window of the dropped edge is suppressed, leaving the state
exactly as the drop left it. -/
theorem c9_no_rollback_on_full_queue (s : IsrState) (t t' : Int)
    (pin level pin' level' : Nat)
    (hfull : s.queue.length = QUEUE_CAPACITY)
    (haccept : DEBOUNCE_TIME_US ≤ t - s.last_interrupt_time)
    (hclose : t' - t < DEBOUNCE_TIME_US) :
    (gpio_isr_handler QUEUE_CAPACITY DEBOUNCE_TIME_US s t pin level).last_interrupt_time = t ∧
    (gpio_isr_handler QUEUE_CAPACITY DEBOUNCE_TIME_US s t pin level).queue = s.queue ∧
    gpio_isr_handler QUEUE_CAPACITY DEBOUNCE_TIME_US
        (gpio_isr_handler QUEUE_CAPACITY DEBOUNCE_TIME_US s t pin level) t' pin' level' =
      gpio_isr_handler QUEUE_CAPACITY DEBOUNCE_TIME_US s t pin level := by
  have hnot : ¬ t - s.last_interrupt_time < DEBOUNCE_TIME_US := by omega
  have hnotroom : ¬ s.queue.length < QUEUE_CAPACITY := by omega
  refine ⟨?_, ?_, ?_⟩ <;>
    simp [gpio_isr_handler, queueSend, hnot, hnotroom, hclose]

/-- C9 witness: a full capacity-10 queue, an accepted edge at t = 60,000
whose push is dropped, and a follow-up edge at t = 70,000 that is suppressed. -/
theorem c9_no_rollback_witness :
    (⟨0, List.replicate 10 ⟨21, 0⟩⟩ : IsrState).queue.length = QUEUE_CAPACITY ∧
    DEBOUNCE_TIME_US ≤ (60000 : Int) - (⟨0, List.replicate 10 ⟨21, 0⟩⟩ : IsrState).last_interrupt_time ∧
    (70000 : Int) - 60000 < DEBOUNCE_TIME_US ∧
    ((gpio_isr_handler QUEUE_CAPACITY DEBOUNCE_TIME_US
        ⟨0, List.replicate 10 ⟨21, 0⟩⟩ 60000 21 1).last_interrupt_time = 60000 ∧
      (gpio_isr_handler QUEUE_CAPACITY DEBOUNCE_TIME_US
        ⟨0, List.replicate 10 ⟨21, 0⟩⟩ 60000 21 1).queue
          = (⟨0, List.replicate 10 ⟨21, 0⟩⟩ : IsrState).queue ∧
      gpio_isr_handler QUEUE_CAPACITY DEBOUNCE_TIME_US
          (gpio_isr_handler QUEUE_CAPACITY DEBOUNCE_TIME_US
            ⟨0, List.replicate 10 ⟨21, 0⟩⟩ 60000 21 1) 70000 21 0 =
        gpio_isr_handler QUEUE_CAPACITY DEBOUNCE_TIME_US
          ⟨0, List.replicate 10 ⟨21, 0⟩⟩ 60000 21 1) :=
  ⟨by decide, by decide, by decide,
    c9_no_rollback_on_full_queue ⟨0, List.replicate 10 ⟨21, 0⟩⟩ 60000 70000
      21 1 21 0 (by decide) (by decide) (by decide)⟩

/-- Modelled from the spec: the Event Channel (§4.3) — the bounded FreeRTOS
queue behind `xQueueCreate`/`xQueueSendFromISR`/`xQueueReceive`, whose
implementation is not part of this repository.  A fixed capacity and a FIFO
buffer (front = oldest). -/
structure Channel where
  cap : Nat
  buf : List Nat
deriving DecidableEq, Repr

/-- Modelled from the spec: non-blocking producer push with drop-newest
overflow — a full channel is left unchanged and failure is reported. -/
def Channel.push (c : Channel) (e : Nat) : Channel × Bool :=
  if c.buf.length < c.cap then ({ c with buf := c.buf ++ [e] }, true)
  else (c, false)

/-- Modelled from the spec: consumer pop, returning the oldest buffered
event; an empty channel makes the consumer wait (no event is returned). -/
def Channel.pop (c : Channel) : Option (Nat × Channel) :=
  match c.buf with
  | [] => none
  | e :: rest => some (e, { c with buf := rest })

/-- An interleaved run of channel operations. -/
inductive ChanOp where
  | push (e : Nat)
  | pop
deriving DecidableEq, Repr

/-- Executes a run of operations, returning the final channel, the events of
the successful pushes in push order, and the popped events in pop order. -/
def runOps : Channel → List ChanOp → Channel × List Nat × List Nat
  | c, [] => (c, [], [])
  | c, ChanOp.push e :: ops =>
    let r := c.push e
    let rest := runOps r.1 ops
    (rest.1, if r.2 then e :: rest.2.1 else rest.2.1, rest.2.2)
  | c, ChanOp.pop :: ops =>
    match c.pop with
    | none => runOps c ops
    | some er =>
      let rest := runOps er.2 ops
      (rest.1, rest.2.1, er.1 :: rest.2.2)

/-- FIFO invariant of any run: the popped events followed by the remaining
buffer are exactly the initial buffer followed by the successful pushes. -/
theorem runOps_fifo :
    ∀ (ops : List ChanOp) (c : Channel),
      (runOps c ops).2.2 ++ (runOps c ops).1.buf =
        c.buf ++ (runOps c ops).2.1 := by
  intro ops
  induction ops with
  | nil => intro c; simp [runOps]
  | cons op rest ih =>
    intro c
    cases op with
    | push e =>
      by_cases h : c.buf.length < c.cap
      · have hpush : c.push e = ({ c with buf := c.buf ++ [e] }, true) := by
          simp [Channel.push, h]
        simp [runOps, hpush, ih]
      · have hpush : c.push e = (c, false) := by
          simp [Channel.push, h]
        simp [runOps, hpush, ih]
    | pop =>
      match hbuf : c.buf with
      | [] =>
        have hpop : c.pop = none := by simp [Channel.pop, hbuf]
        simp [runOps, hpop, ih, hbuf]
      | e :: tail =>
        have hpop : c.pop = some (e, { c with buf := tail }) := by
          simp [Channel.pop, hbuf]
        simp [runOps, hpop, ih, hbuf]

/-- Pushing a list of events (no consumption) keeps the first events that
fit and drops the rest. -/
theorem runOps_pushes_take :
    ∀ (l : List Nat) (c : Channel), c.buf.length ≤ c.cap →
      (runOps c (l.map ChanOp.push)).1.buf =
        c.buf ++ l.take (c.cap - c.buf.length) := by
  intro l
  induction l with
  | nil => intro c _; simp [runOps]
  | cons e rest ih =>
    intro c hlen
    by_cases h : c.buf.length < c.cap
    · have hpush : c.push e = ({ c with buf := c.buf ++ [e] }, true) := by
        simp [Channel.push, h]
      have := ih { c with buf := c.buf ++ [e] } (by simp; omega)
      simp only [List.map_cons, runOps, hpush] at *
      rw [this]
      simp only [List.length_append, List.length_cons, List.length_nil]
      have hc : c.cap - c.buf.length = (c.cap - (c.buf.length + 1)) + 1 := by
        omega
      rw [hc, List.take_succ_cons, List.append_assoc]
      rfl
    · have hpush : c.push e = (c, false) := by
        simp [Channel.push, h]
      have hz : c.cap - c.buf.length = 0 := by omega
      have := ih c hlen
      simp only [List.map_cons, runOps, hpush] at *
      rw [this, hz]
      simp [List.take_zero]

/-- The scenario run of C4: 15 pushes of events 0..14 followed by 15 pops. -/
def c4ScenarioOps : List ChanOp :=
  (List.range 15).map ChanOp.push ++ List.replicate 15 ChanOp.pop

/-- C4: the Event Channel is a bounded drop-newest FIFO.  With capacity 10
and 15 pushes before any consumption, the successful pushes are exactly the
first 10 events; the consumer then pops exactly those 10 events in push
order, draining the channel.  In general, a push-only run retains the prefix
of the pushed events that fits the capacity, and every run from an empty
channel delivers exactly the successful pushes, in push order (popped
events followed by the still-buffered events equal the successful pushes). -/
theorem c4_channel_fifo_drop_newest :
    (runOps ⟨10, []⟩ c4ScenarioOps).2.1 = List.range 10 ∧
    (runOps ⟨10, []⟩ c4ScenarioOps).2.2 = List.range 10 ∧
    (runOps ⟨10, []⟩ c4ScenarioOps).1.buf = [] ∧
    (∀ (cap : Nat) (l : List Nat),
      (runOps ⟨cap, []⟩ (l.map ChanOp.push)).1.buf = l.take cap) ∧
    (∀ (cap : Nat) (ops : List ChanOp),
      (runOps ⟨cap, []⟩ ops).2.2 ++ (runOps ⟨cap, []⟩ ops).1.buf =
        (runOps ⟨cap, []⟩ ops).2.1) := by
  refine ⟨by decide, by decide, by decide, ?_, ?_⟩
  · intro cap l
    have := runOps_pushes_take l ⟨cap, []⟩ (by simp)
    simpa using this
  · intro cap ops
    have := runOps_fifo ops ⟨cap, []⟩
    simpa using this

/-- One consumed button event, with the pin level the ISR sampled when the
edge fired (`gpio_get_level` inside `gpio_isr_handler`) and the level the
pin shows later, when the task consumes the event. -/
structure ConsumedEdge where
  sampledLevel : Nat
  levelAtConsume : Nat
deriving DecidableEq, Repr

/-- Buzzer level driven by `gpio_task` of src/unnamed/part_000: the event
struct carries `level` sampled in the ISR, and the task tests `evt.level ==
0` (active-low press → buzzer on). -/
def gpio_task_buzzer_part000 (e : ConsumedEdge) : Nat :=
  if e.sampledLevel = 0 then 1 else 0

/-- Buzzer level driven by `gpio_task` of the first document of run
2026-02-12_18-59-37: the queue carries only the pin number, and the task
calls `gpio_get_level(BUTTON_GPIO)` again at consume time and tests that. -/
def gpio_task_buzzer_run1859 (e : ConsumedEdge) : Nat :=
  if e.levelAtConsume = 0 then 1 else 0

/-- C8: in src/unnamed/part_000 the actuation is a function of the carried
sampled level alone, but in the doorbell variant of run 2026-02-12_18-59-37
the level is re-read from the pin in task context: a press edge sampled at
level 0 whose pin has returned to 1 by consume time drives the buzzer on in
the carrying variant and off in the re-reading variant, so the re-reading
variant's actuation is not a function of the carried level. -/
theorem c8_level_reread_in_task_context :
    gpio_task_buzzer_part000 ⟨0, 1⟩ = 1 ∧
    gpio_task_buzzer_run1859 ⟨0, 1⟩ = 0 ∧
    (∀ e e' : ConsumedEdge, e.sampledLevel = e'.sampledLevel →
      gpio_task_buzzer_part000 e = gpio_task_buzzer_part000 e') ∧
    ¬ (∀ e e' : ConsumedEdge, e.sampledLevel = e'.sampledLevel →
      gpio_task_buzzer_run1859 e = gpio_task_buzzer_run1859 e') := by
  refine ⟨rfl, rfl, ?_, ?_⟩
  · intro e e' h
    simp [gpio_task_buzzer_part000, h]
  · intro h
    have := h ⟨0, 0⟩ ⟨0, 1⟩ rfl
    simp [gpio_task_buzzer_run1859] at this

/-- Calls issued against the LED timer by the two reconfiguration variants. -/
inductive TimerOp where
  | gptimer_stop
  | gptimer_disable
  | gptimer_del_timer
  | gpio_set_level (lvl : Nat)
  | gptimer_new_timer
  | gptimer_register_event_callbacks
  | gptimer_set_alarm_action (period_us : Nat)
  | gptimer_enable
  | gptimer_start
  | xTimerStop
  | xTimerChangePeriod (period_ms : Nat)
  | xTimerStart
deriving DecidableEq, Repr

/-- Call trace of `configure_led_timer(mode)` (run 2026-02-12_18-59-37,
third document): if a timer exists it is stopped, disabled and deleted and
the LED is lowered; then, for modes 0-2, a fresh timer is created, given its
callback, programmed with `timer_periods[mode]`, enabled and started. -/
def configure_led_timer_trace (timerAllocated : Bool) (mode : Nat) :
    List TimerOp :=
  (if timerAllocated then
    [TimerOp.gptimer_stop, TimerOp.gptimer_disable,
     TimerOp.gptimer_del_timer, TimerOp.gpio_set_level 0]
   else []) ++
  (if mode < 3 then
    [TimerOp.gptimer_new_timer, TimerOp.gptimer_register_event_callbacks,
     TimerOp.gptimer_set_alarm_action (timer_periods.getD mode 0),
     TimerOp.gptimer_enable, TimerOp.gptimer_start]
   else [])

/-- Call trace of the reconfiguration inside `button_task`
(src/unnamed/part_001): an active timer is stopped via `xTimerStop`, then
the switch on `button_state` rewrites the period of the same timer handle
with `xTimerChangePeriod` and restarts it (state 3 lowers the LED instead);
the handle is never deleted. -/
def button_task_reconfig_trace (timerActive : Bool) (state : Nat) :
    List TimerOp :=
  (if timerActive then [TimerOp.xTimerStop] else []) ++
  (match state with
   | 0 => [TimerOp.xTimerChangePeriod 500, TimerOp.xTimerStart]
   | 1 => [TimerOp.xTimerChangePeriod 250, TimerOp.xTimerStart]
   | 2 => [TimerOp.xTimerChangePeriod 125, TimerOp.xTimerStart]
   | _ => [TimerOp.gpio_set_level 0])

/-- An allocated timer handle: whether its alarm is running and its period. -/
structure TimerHandle where
  running : Bool
  period : Nat
deriving DecidableEq, Repr

/-- Effect of each call on the (optional) timer handle: deletion frees it,
creation allocates a stopped one, start/stop flip `running`, period writes
store the period (`xTimerChangePeriod` also starts a dormant FreeRTOS
timer). -/
def stepTimerOp (s : Option TimerHandle) : TimerOp → Option TimerHandle
  | TimerOp.gptimer_stop => s.map fun h => { h with running := false }
  | TimerOp.gptimer_disable => s
  | TimerOp.gptimer_del_timer => none
  | TimerOp.gpio_set_level _ => s
  | TimerOp.gptimer_new_timer => some { running := false, period := 0 }
  | TimerOp.gptimer_register_event_callbacks => s
  | TimerOp.gptimer_set_alarm_action p => s.map fun h => { h with period := p }
  | TimerOp.gptimer_enable => s
  | TimerOp.gptimer_start => s.map fun h => { h with running := true }
  | TimerOp.xTimerStop => s.map fun h => { h with running := false }
  | TimerOp.xTimerChangePeriod p => s.map fun _ => { running := true, period := p }
  | TimerOp.xTimerStart => s.map fun h => { h with running := true }

/-- Whether the handle currently has a running alarm. -/
def timerRunning : Option TimerHandle → Bool
  | none => false
  | some h => h.running

/-- Whether a call writes a new period into the current timer handle. -/
def writesPeriod : TimerOp → Bool
  | TimerOp.gptimer_set_alarm_action _ => true
  | TimerOp.xTimerChangePeriod _ => true
  | _ => false

/-- Checks along a trace that no period write hits a handle whose alarm is
still running at the moment of the write. -/
def noWriteToRunning (s : Option TimerHandle) : List TimerOp → Bool
  | [] => true
  | op :: rest =>
    (!(writesPeriod op) || !(timerRunning s)) &&
      noWriteToRunning (stepTimerOp s op) rest

/-- Checks along a trace that every period write comes after the original
handle has been released (`gptimer_del_timer`). -/
def releasedBeforeWrite (released : Bool) : List TimerOp → Bool
  | [] => true
  | TimerOp.gptimer_del_timer :: rest => releasedBeforeWrite true rest
  | op :: rest =>
    (!(writesPeriod op) || released) && releasedBeforeWrite released rest

/-- C5 (counterexample): in src/unnamed/part_001, reconfiguring while the
timer is active (state 0: switch to 1 Hz) writes a new period with
`xTimerChangePeriod` into the same, never-released handle — the trace has a
period write with no `gptimer_del_timer` (nor any release) before it. -/
theorem c5_inplace_reuse_counterexample :
    releasedBeforeWrite false (button_task_reconfig_trace true 0) = false := by
  decide

/-- C5 (amended): in the gptimer variant, every reconfigure of an allocated
timer stops, disables and releases it before the new period is applied and
the new timer started, and no period write ever hits a running alarm; in the
`xTimer` variant of src/unnamed/part_001 an active timer is stopped before
its period is rewritten — so no period is ever written into a still-running
alarm there either — but the period is rewritten in place into the same
handle, which is never released. -/
theorem c5_reconfigure_stop_release_order (mode state : Nat)
    (p : Nat) (act : Bool) :
    releasedBeforeWrite false (configure_led_timer_trace true mode) = true ∧
    noWriteToRunning (some ⟨true, p⟩) (configure_led_timer_trace true mode) = true ∧
    noWriteToRunning (some ⟨act, p⟩) (button_task_reconfig_trace act state) = true := by
  refine ⟨?_, ?_, ?_⟩
  · by_cases h : mode < 3 <;>
      simp [configure_led_timer_trace, h, releasedBeforeWrite, writesPeriod]
  · by_cases h : mode < 3 <;>
      simp [configure_led_timer_trace, h, noWriteToRunning, writesPeriod,
        stepTimerOp, timerRunning]
  · cases act <;>
      rcases state with _ | _ | _ | s <;>
        simp [button_task_reconfig_trace, noWriteToRunning, writesPeriod,
          stepTimerOp, timerRunning]

end EmbedAgent
